import Mathlib

/-!
Shallow embedding of the Collision-Expansion-Viewer geometry engine.

The embedding translates `src/collisionBoxExpansion.py` (class `ObstacleExpander`)
and `src/CollisionDetector.py` (class `CollisionDetector`) into Lean.  Coordinates
are modelled as exact rationals (`ℚ`): the Python code computes with IEEE doubles,
but on every concrete input appearing in the claims below all intermediate
values are exactly representable doubles, so rational arithmetic coincides with
the source's float arithmetic on those inputs.

The source calls a handful of irrational primitives (`math.cos`/`math.sin`,
`math.atan2`, the square root inside `numpy.linalg.norm`, and
`scipy.spatial.ConvexHull`).  These are threaded through the embedding as an
explicit oracle record `Geo`, so that every theorem about control flow, point
counts, error signalling or `None` results holds for every valuation of the
oracle, and theorems about concrete values instantiate the oracle at points
where its exact value is rational and known.
-/

namespace CollisionViewer

/-- A 2D point, `QPointF` / a numpy row of shape (2,). -/
abbrev Point := ℚ × ℚ

/-- One shoelace term: `x1 * y2 - x2 * y1` (collisionBoxExpansion.py line 303). -/
def cross (p q : Point) : ℚ := p.1 * q.2 - q.1 * p.2

/-- The signed-area accumulation loop of `_is_counter_clockwise`
(collisionBoxExpansion.py lines 296-303): `Σ_i (x_i * y_{i+1} - x_{i+1} * y_i)`,
with the index wrapping as `(i + 1) % n`. -/
def shoelace (vs : List Point) : ℚ :=
  ∑ i in Finset.range vs.length,
    cross (vs.getD i 0) (vs.getD ((i + 1) % vs.length) 0)

/-- `ObstacleExpander._is_counter_clockwise` (collisionBoxExpansion.py lines
279-308): returns `signed_area > 0`. -/
def _is_counter_clockwise (vertices : List Point) : Bool :=
  decide (shoelace vertices > 0)

/-- `ObstacleExpander._ensure_counter_clockwise` (collisionBoxExpansion.py lines
310-323): reverse the vertex order (`vertices[::-1]`) unless
`_is_counter_clockwise` holds; otherwise return it unchanged. -/
def _ensure_counter_clockwise (vertices : List Point) : List Point :=
  if ¬ _is_counter_clockwise vertices then vertices.reverse else vertices

/-- Reversing the vertex list negates the shoelace signed area. -/
lemma shoelace_reverse (vs : List Point) : shoelace vs.reverse = - shoelace vs := by
  cases hv : vs.length with
  | zero =>
    rw [List.length_eq_zero.mp hv]
    simp [shoelace]
  | succ m =>
    have hrevlen : vs.reverse.length = m + 1 := by rw [List.length_reverse, hv]
    have hget : ∀ i, i ≤ m → vs.reverse.getD i 0 = vs.getD (m - i) 0 := by
      intro i hi
      have h1 : i < vs.reverse.length := by omega
      have h2 : m - i < vs.length := by omega
      rw [List.getD_eq_getElem _ _ h1, List.getD_eq_getElem _ _ h2, List.getElem_reverse]
      have h3 : vs.length - 1 - i = m - i := by omega
      simp only [h3]
    have peel : ∀ g : ℕ → Point,
        ∑ i in Finset.range (m + 1), cross (g i) (g ((i + 1) % (m + 1)))
          = (∑ i in Finset.range m, cross (g i) (g (i + 1))) + cross (g m) (g 0) := by
      intro g
      rw [Finset.sum_range_succ]
      have h0 : (m + 1) % (m + 1) = 0 := Nat.mod_self _
      rw [h0]
      congr 1
      refine Finset.sum_congr rfl ?_
      intro i hi
      have hi' : i < m := Finset.mem_range.mp hi
      have : (i + 1) % (m + 1) = i + 1 := Nat.mod_eq_of_lt (by omega)
      rw [this]
    have e1 : shoelace vs
        = (∑ i in Finset.range m, cross (vs.getD i 0) (vs.getD (i + 1) 0))
          + cross (vs.getD m 0) (vs.getD 0 0) := by
      have h := peel (fun i => vs.getD i 0)
      simpa [shoelace, hv] using h
    have e2 : shoelace vs.reverse
        = (∑ i in Finset.range m, cross (vs.reverse.getD i 0) (vs.reverse.getD (i + 1) 0))
          + cross (vs.reverse.getD m 0) (vs.reverse.getD 0 0) := by
      have h := peel (fun i => vs.reverse.getD i 0)
      simpa [shoelace, hrevlen] using h
    have e3 : ∑ i in Finset.range m, cross (vs.reverse.getD i 0) (vs.reverse.getD (i + 1) 0)
        = ∑ i in Finset.range m, cross (vs.getD ((m - 1 - i) + 1) 0) (vs.getD (m - 1 - i) 0) := by
      refine Finset.sum_congr rfl ?_
      intro i hi
      have hi' : i < m := Finset.mem_range.mp hi
      rw [hget i (by omega), hget (i + 1) (by omega)]
      have ha : m - i = (m - 1 - i) + 1 := by omega
      have hb : m - (i + 1) = m - 1 - i := by omega
      rw [ha, hb]
    have e4 : ∑ i in Finset.range m, cross (vs.getD ((m - 1 - i) + 1) 0) (vs.getD (m - 1 - i) 0)
        = ∑ i in Finset.range m, cross (vs.getD (i + 1) 0) (vs.getD i 0) :=
      Finset.sum_range_reflect (fun j => cross (vs.getD (j + 1) 0) (vs.getD j 0)) m
    have e5 : (∑ i in Finset.range m, cross (vs.getD (i + 1) 0) (vs.getD i 0))
        + (∑ i in Finset.range m, cross (vs.getD i 0) (vs.getD (i + 1) 0)) = 0 := by
      rw [← Finset.sum_add_distrib]
      refine Finset.sum_eq_zero ?_
      intro i _
      simp only [cross]
      ring
    have e6 : cross (vs.reverse.getD m 0) (vs.reverse.getD 0 0)
        = - cross (vs.getD m 0) (vs.getD 0 0) := by
      rw [hget m le_rfl, hget 0 (Nat.zero_le m)]
      simp only [Nat.sub_self, Nat.sub_zero, cross]
      ring
    rw [e1, e2, e3, e4, e6]
    linarith

/-- C8, counterexample: on the degenerate (collinear, zero-signed-area) polygon
`[(0,0),(1,0),(2,0)]` the winding normalizer is neither idempotent nor a
pass-through: it reverses the list, and applying it twice returns the original
list, which differs from one application. -/
theorem normalize_not_idempotent_on_degenerate :
    _ensure_counter_clockwise (_ensure_counter_clockwise [((0:ℚ),(0:ℚ)), (1,0), (2,0)])
      ≠ _ensure_counter_clockwise [((0:ℚ),(0:ℚ)), (1,0), (2,0)]
    ∧ _ensure_counter_clockwise [((0:ℚ),(0:ℚ)), (1,0), (2,0)]
      ≠ [((0:ℚ),(0:ℚ)), (1,0), (2,0)] := by
  norm_num [_ensure_counter_clockwise, _is_counter_clockwise, shoelace,
    Finset.sum_range_succ, cross]

/-- C8 (amended): the output of the winding normalizer always has signed
shoelace area ≥ 0, and the normalizer is idempotent on every polygon whose
signed area is nonzero; on a zero-signed-area (degenerate) polygon it does not
pass the list through unchanged but reverses it (so applying it twice yields
the original list back, and idempotence fails there, as the counterexample
shows). -/
theorem normalize_area_nonneg_and_idem (vs : List Point) :
    0 ≤ shoelace (_ensure_counter_clockwise vs)
    ∧ (shoelace vs ≠ 0 →
        _ensure_counter_clockwise (_ensure_counter_clockwise vs)
          = _ensure_counter_clockwise vs)
    ∧ (shoelace vs = 0 → _ensure_counter_clockwise vs = vs.reverse) := by
  refine ⟨?_, ?_, ?_⟩
  · by_cases h : shoelace vs > 0
    · simp only [_ensure_counter_clockwise, _is_counter_clockwise, decide_eq_true_eq]
      rw [if_neg (by simpa using h)]
      linarith
    · simp only [_ensure_counter_clockwise, _is_counter_clockwise, decide_eq_true_eq]
      rw [if_pos (by simpa using h), shoelace_reverse]
      push_neg at h
      linarith
  · intro hne
    rcases lt_or_gt_of_ne hne with hneg | hpos
    · have h1 : _ensure_counter_clockwise vs = vs.reverse := by
        simp only [_ensure_counter_clockwise, _is_counter_clockwise, decide_eq_true_eq]
        rw [if_pos (by simp; linarith)]
      have h2 : shoelace vs.reverse > 0 := by rw [shoelace_reverse]; linarith
      rw [h1]
      simp only [_ensure_counter_clockwise, _is_counter_clockwise, decide_eq_true_eq]
      rw [if_neg (by simpa using h2)]
    · have h1 : _ensure_counter_clockwise vs = vs := by
        simp only [_ensure_counter_clockwise, _is_counter_clockwise, decide_eq_true_eq]
        rw [if_neg (by simpa using hpos)]
      rw [h1, h1]
  · intro hz
    simp only [_ensure_counter_clockwise, _is_counter_clockwise, decide_eq_true_eq]
    rw [if_pos (by simp [hz])]

/-- Witness for the amended C8 theorem: idempotence discharged on a concrete
nondegenerate triangle (signed area 12), and the reversal clause discharged on
the concrete degenerate polygon. -/
theorem normalize_area_nonneg_and_idem_witness :
    _ensure_counter_clockwise (_ensure_counter_clockwise [((0:ℚ),(0:ℚ)), (3,0), (0,4)])
      = _ensure_counter_clockwise [((0:ℚ),(0:ℚ)), (3,0), (0,4)]
    ∧ _ensure_counter_clockwise [((0:ℚ),(0:ℚ)), (1,0), (2,0)]
      = [((0:ℚ),(0:ℚ)), (1,0), (2,0)].reverse := by
  refine ⟨(normalize_area_nonneg_and_idem _).2.1 ?_, (normalize_area_nonneg_and_idem _).2.2 ?_⟩
  · norm_num [shoelace, Finset.sum_range_succ, cross]
  · norm_num [shoelace, Finset.sum_range_succ, cross]

/-! ## Oracle for irrational primitives -/

/-- Oracle for the irrational primitives the source calls.
`dir t` stands for `(cos (2*π*t), sin (2*π*t))` (a point of the unit circle at
the given fraction of a full turn); it models both `math.cos/math.sin` applied
to `math.radians(rotation)` (at `t = rotation/360`) and the regular-polygon
angles `-π/2 + 2*π*i/n` of `_regular_polygon_vertices` (at `t = -1/4 + i/n`).
`cosQ`/`sinQ`/`atan2Q` model `math.cos`/`math.sin`/`math.atan2` on the raw
angle values used by `CollisionDetector.get_expanded_vertices`.  `sqrtQ` models
the square root inside `numpy.linalg.norm`.  `hull` models
`scipy.spatial.ConvexHull` (`none` models the exception branch).  Theorems
either hold for every valuation of the oracle or instantiate it at inputs
where the exact value is rational. -/
structure Geo where
  dir : ℚ → Point
  cosQ : ℚ → ℚ
  sinQ : ℚ → ℚ
  atan2Q : ℚ → ℚ → ℚ
  sqrtQ : ℚ → ℚ
  hull : List Point → Option (List Point)

/-- Exact rational square root: returns the nonnegative rational `r` with
`r * r = q` when it exists, else `0`.  It agrees with the source's (real)
square root on every input whose square root is rational, which covers every
evaluation performed by the concrete theorems below. -/
def ratSqrt (q : ℚ) : ℚ :=
  if 0 ≤ q.num ∧ q.num.natAbs.sqrt * q.num.natAbs.sqrt = q.num.natAbs
      ∧ q.den.sqrt * q.den.sqrt = q.den
  then (q.num.natAbs.sqrt : ℚ) / (q.den.sqrt : ℚ)
  else 0

/-- A concrete oracle used by theorems about inputs on which the trigonometric
entries are never consulted and every square root taken is rational. -/
def geoRat : Geo :=
  { dir := fun _ => (1, 0)
    cosQ := fun _ => 1
    sinQ := fun _ => 0
    atan2Q := fun _ _ => 0
    sqrtQ := ratSqrt
    hull := fun _ => none }

/-! ## Data model -/

/-- The `directional_expansion` sub-dictionary; each entry read with
`.get(key, 0)`. -/
structure Directional where
  north : ℚ := 0
  south : ℚ := 0
  east : ℚ := 0
  west : ℚ := 0
deriving DecidableEq

/-- The obstacle dictionary.  `Option` fields model keys whose *presence* the
source tests or whose absence triggers a context-dependent default
(`expansion_distance` defaults to `0` in the detector but to the expander's
`self.d_exp` in `expand_obstacle`; `force_convex_hull` is tested with
`'force_convex_hull' in obstacle`; `points` with `'points' in obstacle`).
`type` is a plain string so unknown shape kinds are representable. -/
structure Obstacle where
  type : String := "rectangle"
  x : ℚ := 0
  y : ℚ := 0
  width : ℚ := 0
  height : ℚ := 0
  rotation : ℚ := 0
  points : Option (List Point) := none
  expansion_distance : Option ℚ := none
  expansion_method : Option String := none
  use_directional_expansion : Bool := false
  directional_expansion : Directional := {}
  can_rotate : Bool := true
  force_convex_hull : Option Bool := none
deriving DecidableEq

/-- `ObstacleExpander.METHOD_PRESERVE_SHAPE`. -/
def METHOD_PRESERVE_SHAPE : String := "preserve_shape"

/-- `ObstacleExpander.METHOD_CONVEX`. -/
def METHOD_CONVEX : String := "convex"

/-- `ObstacleExpander.METHOD_GENERALIZED`. -/
def METHOD_GENERALIZED : String := "generalized"

/-- The mutable state of an `ObstacleExpander` instance. -/
structure ExpanderState where
  d_exp : ℚ := 0
  force_convex_hull : Bool := false
deriving DecidableEq

/-- The `1e-10` epsilon used in the degenerate-edge and parallel-line guards. -/
def eps : ℚ := 1 / 10 ^ 10

/-- Dot product of two 2D vectors. -/
def dot (p q : Point) : ℚ := p.1 * q.1 + p.2 * q.2

/-- The result of an expansion, `ExpandedBoundary`: either a plain polygon
(`preserve_shape` / `convex`) or edges plus arc centers plus one arc radius
(`generalized`). -/
inductive ExpandResult where
  | poly (vertices : List Point)
  | arcs (edges : List (Point × Point)) (centers : List Point) (radius : ℚ)
deriving DecidableEq

/-- `ObstacleExpander._regular_polygon_vertices` (lines 270-277): vertices of a
regular `n`-gon inscribed in the circle of the given radius around `(cx, cy)`,
first vertex at angle `-π/2` (i.e. `dir` at turn fraction `-1/4 + i/n`). -/
def _regular_polygon_vertices (G : Geo) (cx cy radius : ℚ) (num_sides : ℕ) :
    List Point :=
  (List.range num_sides).map fun i =>
    let d := G.dir (-(1 : ℚ)/4 + (i : ℚ) / (num_sides : ℚ))
    (cx + radius * d.1, cy + radius * d.2)

/-- Rotation of `v` about `center` by the angle whose cosine/sine are `c`/`s`
(the `(local_vertices - center) @ rotation_matrix.T + center` computation). -/
def rotate_about (c s : ℚ) (center v : Point) : Point :=
  ((v.1 - center.1) * c - (v.2 - center.2) * s + center.1,
   (v.1 - center.1) * s + (v.2 - center.2) * c + center.2)

/-- `np.mean(local_vertices, axis=0)`: the vertex centroid. -/
def centroid (vs : List Point) : Point :=
  ((vs.map Prod.fst).sum / (vs.length : ℚ), (vs.map Prod.snd).sum / (vs.length : ℚ))

/-- `ObstacleExpander._obstacle_to_vertices` (lines 192-268): local vertices by
shape kind (unknown kinds fall into the final `else` branch, which silently
produces the rectangle corners), optional rotation (skipped when `can_rotate`
is false; pivot is the vertex centroid for custom polygons and the
bounding-box center otherwise), then translation to world position. -/
def _obstacle_to_vertices (G : Geo) (obstacle : Obstacle) : List Point :=
  let width := obstacle.width
  let height := obstacle.height
  let local_vertices : List Point :=
    if obstacle.type = "rectangle" then
      [(0, 0), (width, 0), (width, height), (0, height)]
    else if obstacle.type = "triangle" then
      [(width / 2, 0), (width, height), (0, height)]
    else if obstacle.type = "pentagon" then
      _regular_polygon_vertices G (width / 2) (height / 2) (min width height / 2) 5
    else if obstacle.type = "hexagon" then
      _regular_polygon_vertices G (width / 2) (height / 2) (min width height / 2) 6
    else if obstacle.type = "custom_polygon" ∧ obstacle.points.isSome then
      obstacle.points.getD []
    else
      [(0, 0), (width, 0), (width, height), (0, height)]
  let rotated :=
    if obstacle.rotation ≠ 0 ∧ obstacle.can_rotate then
      let center :=
        if obstacle.type = "custom_polygon" then centroid local_vertices
        else (width / 2, height / 2)
      let c := (G.dir (obstacle.rotation / 360)).1
      let s := (G.dir (obstacle.rotation / 360)).2
      local_vertices.map (rotate_about c s center)
    else local_vertices
  rotated.map fun v => (v.1 + obstacle.x, v.2 + obstacle.y)

/-- `ObstacleExpander._line_intersection` (lines 470-486): intersection of the
two infinite lines through `(p1,p2)` and `(p3,p4)`; when the determinant is
below the epsilon (near-parallel) it returns the midpoint of `p2` and `p3`. -/
def _line_intersection (p1 p2 p3 p4 : Point) : Point :=
  let denom := (p1.1 - p2.1) * (p3.2 - p4.2) - (p1.2 - p2.2) * (p3.1 - p4.1)
  if |denom| < eps then ((p2.1 + p3.1) / 2, (p2.2 + p3.2) / 2)
  else
    let t := ((p1.1 - p3.1) * (p3.2 - p4.2) - (p1.2 - p3.2) * (p3.1 - p4.1)) / denom
    (p1.1 + t * (p2.1 - p1.1), p1.2 + t * (p2.2 - p1.2))

/-- `ObstacleExpander._compute_convex_hull` (lines 162-190): identity below 3
points; otherwise the scipy hull re-ordered counter-clockwise, falling back to
the original vertices when hull computation fails. -/
def _compute_convex_hull (G : Geo) (vertices : List Point) : List Point :=
  if vertices.length < 3 then vertices
  else
    match G.hull vertices with
    | some hull_vertices => _ensure_counter_clockwise hull_vertices
    | none => vertices

/-- `ObstacleExpander.expand_polygon_preserve_shape` (lines 325-377): normalize
winding, offset each edge outward by `d_exp` along its unit normal
`(dy, -dx)/‖(dy, -dx)‖` (the normal replaced by the zero vector when its length
is not above the epsilon), then intersect each pair of adjacent offset edges as
infinite lines. -/
def expand_polygon_preserve_shape (G : Geo) (d_exp : ℚ) (vertices : List Point) :
    List Point :=
  let vertices := _ensure_counter_clockwise vertices
  let n := vertices.length
  let expanded_edges : List (Point × Point) :=
    (List.range n).map fun i =>
      let v1 := vertices.getD i 0
      let v2 := vertices.getD ((i + 1) % n) 0
      let edge : Point := (v2.1 - v1.1, v2.2 - v1.2)
      let normal : Point := (edge.2, -edge.1)
      let normal_len := G.sqrtQ (dot normal normal)
      let normal : Point :=
        if normal_len > eps then (normal.1 / normal_len, normal.2 / normal_len)
        else (0, 0)
      let offset : Point := (normal.1 * d_exp, normal.2 * d_exp)
      ((v1.1 + offset.1, v1.2 + offset.2), (v2.1 + offset.1, v2.2 + offset.2))
  (List.range n).map fun i =>
    let e1 := expanded_edges.getD i (0, 0)
    let e2 := expanded_edges.getD ((i + 1) % n) (0, 0)
    _line_intersection e1.1 e1.2 e2.1 e2.2

/-- `ObstacleExpander.expand_polygon_convex` (lines 379-427): normalize
winding, then for each vertex emit two offset points along the unit normals of
its two adjacent edges (each normal left unnormalized when its length is not
above the epsilon), giving `2n` output vertices. -/
def expand_polygon_convex (G : Geo) (d_exp : ℚ) (vertices : List Point) :
    List Point :=
  let vertices := _ensure_counter_clockwise vertices
  let n := vertices.length
  (List.range n).flatMap fun i =>
    let v_curr := vertices.getD i 0
    let v_prev := vertices.getD ((i + (n - 1)) % n) 0
    let v_next := vertices.getD ((i + 1) % n) 0
    let edge_prev : Point := (v_curr.1 - v_prev.1, v_curr.2 - v_prev.2)
    let edge_next : Point := (v_next.1 - v_curr.1, v_next.2 - v_curr.2)
    let normal_prev : Point := (edge_prev.2, -edge_prev.1)
    let normal_prev_len := G.sqrtQ (dot normal_prev normal_prev)
    let normal_prev :=
      if normal_prev_len > eps
      then (normal_prev.1 / normal_prev_len, normal_prev.2 / normal_prev_len)
      else normal_prev
    let normal_next : Point := (edge_next.2, -edge_next.1)
    let normal_next_len := G.sqrtQ (dot normal_next normal_next)
    let normal_next :=
      if normal_next_len > eps
      then (normal_next.1 / normal_next_len, normal_next.2 / normal_next_len)
      else normal_next
    [(v_curr.1 + normal_prev.1 * d_exp, v_curr.2 + normal_prev.2 * d_exp),
     (v_curr.1 + normal_next.1 * d_exp, v_curr.2 + normal_next.2 * d_exp)]

/-- `ObstacleExpander.expand_polygon_generalized` (lines 429-468): normalize
winding, offset each edge outward by `d_exp` along its unit normal (left
unnormalized when its length is not above the epsilon); arc centers are the
original vertices and the arc radius is `d_exp`. -/
def expand_polygon_generalized (G : Geo) (d_exp : ℚ) (vertices : List Point) :
    List (Point × Point) × List Point × ℚ :=
  let vertices := _ensure_counter_clockwise vertices
  let n := vertices.length
  let expanded_edges : List (Point × Point) :=
    (List.range n).map fun i =>
      let v1 := vertices.getD i 0
      let v2 := vertices.getD ((i + 1) % n) 0
      let edge : Point := (v2.1 - v1.1, v2.2 - v1.2)
      let normal : Point := (edge.2, -edge.1)
      let normal_len := G.sqrtQ (dot normal normal)
      let normal : Point :=
        if normal_len > eps then (normal.1 / normal_len, normal.2 / normal_len)
        else normal
      let offset : Point := (normal.1 * d_exp, normal.2 * d_exp)
      ((v1.1 + offset.1, v1.2 + offset.2), (v2.1 + offset.1, v2.2 + offset.2))
  (expanded_edges, vertices, d_exp)

/-- `ObstacleExpander._get_local_vertices_for_type` (lines 830-847): local
vertices for triangle/pentagon/hexagon; any other type raises `ValueError`. -/
def _get_local_vertices_for_type (G : Geo) (obstacle_type : String)
    (width height : ℚ) : Except String (List Point) :=
  if obstacle_type = "triangle" then
    .ok [(width / 2, 0), (width, height), (0, height)]
  else if obstacle_type = "pentagon" then
    .ok (_regular_polygon_vertices G (width / 2) (height / 2) (min width height / 2) 5)
  else if obstacle_type = "hexagon" then
    .ok (_regular_polygon_vertices G (width / 2) (height / 2) (min width height / 2) 6)
  else .error ("Unknown obstacle type: " ++ obstacle_type)

/-- The closed edge list of a polygon: `(v_i, v_{(i+1) % n})` for each `i`
(the edge-building loops at lines 584-590 and 771-777). -/
def cyclic_edges (vs : List Point) : List (Point × Point) :=
  (List.range vs.length).map fun i =>
    (vs.getD i 0, vs.getD ((i + 1) % vs.length) 0)

/-- The per-vertex two-offset-point loop shared by the `METHOD_CONVEX` branches
of the two directional routines (lines 600-638 and 787-823): for each vertex,
emit `vertex + normal_prev * d` and `vertex + normal_next * d`, each normal
normalized only when its length is above the epsilon. -/
def convex_corner_loop (G : Geo) (d : ℚ) (vertices : List Point) : List Point :=
  let n := vertices.length
  (List.range n).flatMap fun i =>
    let v_curr := vertices.getD i 0
    let v_prev := vertices.getD ((i + (n - 1)) % n) 0
    let v_next := vertices.getD ((i + 1) % n) 0
    let edge_prev : Point := (v_curr.1 - v_prev.1, v_curr.2 - v_prev.2)
    let edge_next : Point := (v_next.1 - v_curr.1, v_next.2 - v_curr.2)
    let normal_prev : Point := (edge_prev.2, -edge_prev.1)
    let normal_prev_len := G.sqrtQ (dot normal_prev normal_prev)
    let normal_prev :=
      if normal_prev_len > eps
      then (normal_prev.1 / normal_prev_len, normal_prev.2 / normal_prev_len)
      else normal_prev
    let normal_next : Point := (edge_next.2, -edge_next.1)
    let normal_next_len := G.sqrtQ (dot normal_next normal_next)
    let normal_next :=
      if normal_next_len > eps
      then (normal_next.1 / normal_next_len, normal_next.2 / normal_next_len)
      else normal_next
    [(v_curr.1 + normal_prev.1 * d, v_curr.2 + normal_prev.2 * d),
     (v_curr.1 + normal_next.1 * d, v_curr.2 + normal_next.2 * d)]

/-- `ObstacleExpander.expand_rectangle_directional` (lines 515-644): rectangles
only (`ValueError` otherwise); `None` when all four directional distances are
zero; otherwise the rectangle grown by `west/north/east/south` on the four
sides, rotated about the original bounding-box center when `rotation ≠ 0`,
translated to world position, and finally rendered according to the obstacle's
own expansion method (`generalized`: edges + corners as arc centers + the
maximum directional distance as radius; `convex`: two offset points per corner
using the average of the four distances; anything else: the vertices as-is). -/
def expand_rectangle_directional (G : Geo) (obstacle : Obstacle) :
    Except String (Option ExpandResult) :=
  if obstacle.type ≠ "rectangle" then
    .error "Directional expansion only works with rectangles"
  else
    let width := obstacle.width
    let height := obstacle.height
    let exp_north := obstacle.directional_expansion.north
    let exp_south := obstacle.directional_expansion.south
    let exp_east := obstacle.directional_expansion.east
    let exp_west := obstacle.directional_expansion.west
    if exp_north = 0 ∧ exp_south = 0 ∧ exp_east = 0 ∧ exp_west = 0 then .ok none
    else
      let local_vertices : List Point :=
        [(-exp_west, -exp_north), (width + exp_east, -exp_north),
         (width + exp_east, height + exp_south), (-exp_west, height + exp_south)]
      let local_vertices :=
        if obstacle.rotation ≠ 0 then
          let c := (G.dir (obstacle.rotation / 360)).1
          let s := (G.dir (obstacle.rotation / 360)).2
          local_vertices.map (rotate_about c s (width / 2, height / 2))
        else local_vertices
      let world_vertices := local_vertices.map fun v => (v.1 + obstacle.x, v.2 + obstacle.y)
      let method := obstacle.expansion_method.getD METHOD_GENERALIZED
      if method = METHOD_GENERALIZED then
        .ok (some (.arcs (cyclic_edges world_vertices) world_vertices
          (max (max exp_north exp_south) (max exp_east exp_west))))
      else if method = METHOD_CONVEX then
        .ok (some (.poly (convex_corner_loop G
          ((exp_north + exp_south + exp_east + exp_west) / 4) world_vertices)))
      else
        .ok (some (.poly world_vertices))

/-- `ObstacleExpander.expand_polygon_directional` (lines 646-828): triangle,
pentagon or hexagon only (`ValueError` otherwise); `None` when all four
directional distances are zero; otherwise each edge is classified against the
local centroid by its midpoint (north/south/west/east, possibly two at once),
the resulting directional vector is projected onto the edge's outward normal,
the edge is offset by that scalar, adjacent offset edges are intersected,
rotation is applied about the centroid, the result is translated to world
position and rendered according to the obstacle's own expansion method. -/
def expand_polygon_directional (G : Geo) (obstacle : Obstacle) :
    Except String (Option ExpandResult) :=
  if ¬ (obstacle.type = "triangle" ∨ obstacle.type = "pentagon"
      ∨ obstacle.type = "hexagon") then
    .error ("Quadrant-based directional expansion not supported for " ++ obstacle.type)
  else
    let exp_north := obstacle.directional_expansion.north
    let exp_south := obstacle.directional_expansion.south
    let exp_east := obstacle.directional_expansion.east
    let exp_west := obstacle.directional_expansion.west
    if exp_north = 0 ∧ exp_south = 0 ∧ exp_east = 0 ∧ exp_west = 0 then .ok none
    else
      match _get_local_vertices_for_type G obstacle.type obstacle.width obstacle.height with
      | .error e => .error e
      | .ok local_vertices =>
        let center := centroid local_vertices
        let n := local_vertices.length
        let expanded_vertices : List (Point × Point) :=
          (List.range n).map fun i =>
            let v1 := local_vertices.getD i 0
            let v2 := local_vertices.getD ((i + 1) % n) 0
            let edge_midpoint : Point := ((v1.1 + v2.1) / 2, (v1.2 + v2.2) / 2)
            let is_north := edge_midpoint.2 < center.2
            let is_south := edge_midpoint.2 > center.2
            let is_west := edge_midpoint.1 < center.1
            let is_east := edge_midpoint.1 > center.1
            let expansion_x := (if is_west then -exp_west else 0)
              + (if is_east then exp_east else 0)
            let expansion_y := (if is_north then -exp_north else 0)
              + (if is_south then exp_south else 0)
            let edge : Point := (v2.1 - v1.1, v2.2 - v1.2)
            let normal : Point := (edge.2, -edge.1)
            let normal_len := G.sqrtQ (dot normal normal)
            let normal :=
              if normal_len > eps then (normal.1 / normal_len, normal.2 / normal_len)
              else normal
            let expansion_magnitude := dot (expansion_x, expansion_y) normal
            let offset : Point := (normal.1 * expansion_magnitude, normal.2 * expansion_magnitude)
            ((v1.1 + offset.1, v1.2 + offset.2), (v2.1 + offset.1, v2.2 + offset.2))
        let final_vertices : List Point :=
          (List.range n).map fun i =>
            let e1 := expanded_vertices.getD i (0, 0)
            let e2 := expanded_vertices.getD ((i + 1) % n) (0, 0)
            _line_intersection e1.1 e1.2 e2.1 e2.2
        let final_vertices :=
          if obstacle.rotation ≠ 0 then
            let c := (G.dir (obstacle.rotation / 360)).1
            let s := (G.dir (obstacle.rotation / 360)).2
            final_vertices.map (rotate_about c s center)
          else final_vertices
        let world_vertices := final_vertices.map fun v => (v.1 + obstacle.x, v.2 + obstacle.y)
        let method := obstacle.expansion_method.getD METHOD_GENERALIZED
        if method = METHOD_GENERALIZED then
          .ok (some (.arcs (cyclic_edges world_vertices) world_vertices
            (max (max exp_north exp_south) (max exp_east exp_west))))
        else if method = METHOD_CONVEX then
          .ok (some (.poly (convex_corner_loop G
            ((exp_north + exp_south + exp_east + exp_west) / 4) world_vertices)))
        else
          .ok (some (.poly world_vertices))

/-- The "original expansion logic" part of `ObstacleExpander.expand_obstacle`
(lines 111-160): resolve the expansion distance (obstacle's own value, else the
expander's `self.d_exp`); return `None` when it is `≤ 0`; otherwise temporarily
set `self.d_exp` to it, resolve the convex-hull flag (obstacle's own key
overrides the call argument, which overrides the expander's setting) and the
method (call argument, else obstacle's, else `generalized`), convert the
obstacle to vertices, optionally take the convex hull, run the selected
algorithm — raising `ValueError` on an unknown method symbol — and restore
`self.d_exp` in a `finally` block, so the state is restored on both the normal
and the raising path. -/
def expand_obstacle_base (G : Geo) (s : ExpanderState) (obstacle : Obstacle)
    (method : Option String) (force_convex_hull : Option Bool) :
    Except String (Option ExpandResult) × ExpanderState :=
  let expansion_dist := obstacle.expansion_distance.getD s.d_exp
  if expansion_dist ≤ 0 then (.ok none, s)
  else
    let old_distance := s.d_exp
    let s' : ExpanderState := { s with d_exp := expansion_dist }
    let use_convex_hull :=
      obstacle.force_convex_hull.getD (force_convex_hull.getD s.force_convex_hull)
    let m := method.getD (obstacle.expansion_method.getD METHOD_GENERALIZED)
    let vertices := _obstacle_to_vertices G obstacle
    let vertices := if use_convex_hull then _compute_convex_hull G vertices else vertices
    let result : Except String (Option ExpandResult) :=
      if m = METHOD_PRESERVE_SHAPE then
        .ok (some (.poly (expand_polygon_preserve_shape G s'.d_exp vertices)))
      else if m = METHOD_CONVEX then
        .ok (some (.poly (expand_polygon_convex G s'.d_exp vertices)))
      else if m = METHOD_GENERALIZED then
        let r := expand_polygon_generalized G s'.d_exp vertices
        .ok (some (.arcs r.1 r.2.1 r.2.2))
      else .error ("Unknown method: " ++ m)
    (result, { s' with d_exp := old_distance })

/-- `ObstacleExpander.expand_obstacle` (lines 80-160): when the obstacle has
`use_directional_expansion` set and at least one of the four directional
distances is strictly positive, dispatch to the directional routine for
rectangles, and for triangle/pentagon/hexagon; every other case — including a
custom polygon with directional expansion requested, and directional expansion
whose four distances are all zero — falls through to the original expansion
logic. -/
def expand_obstacle (G : Geo) (s : ExpanderState) (obstacle : Obstacle)
    (method : Option String := none) (force_convex_hull : Option Bool := none) :
    Except String (Option ExpandResult) × ExpanderState :=
  if obstacle.use_directional_expansion = true ∧
      (obstacle.directional_expansion.north > 0 ∨ obstacle.directional_expansion.south > 0
        ∨ obstacle.directional_expansion.east > 0
        ∨ obstacle.directional_expansion.west > 0) then
    if obstacle.type = "rectangle" then
      (expand_rectangle_directional G obstacle, s)
    else if obstacle.type = "triangle" ∨ obstacle.type = "pentagon"
        ∨ obstacle.type = "hexagon" then
      (expand_polygon_directional G obstacle, s)
    else expand_obstacle_base G s obstacle method force_convex_hull
  else expand_obstacle_base G s obstacle method force_convex_hull

/-! ## CollisionDetector -/

/-- `CollisionDetector.get_obstacle_vertices` (CollisionDetector.py lines
22-111): same local-vertex generation as `_obstacle_to_vertices` (unknown kinds
silently default to the rectangle corners), but rotation — when `rotation ≠ 0`,
with no `can_rotate` check — is always about the bounding-box center, for
custom polygons too. -/
def get_obstacle_vertices (G : Geo) (obstacle : Obstacle) : List Point :=
  let width := obstacle.width
  let height := obstacle.height
  let local_vertices : List Point :=
    if obstacle.type = "rectangle" then
      [(0, 0), (width, 0), (width, height), (0, height)]
    else if obstacle.type = "triangle" then
      [(width / 2, 0), (width, height), (0, height)]
    else if obstacle.type = "pentagon" then
      _regular_polygon_vertices G (width / 2) (height / 2) (min width height / 2) 5
    else if obstacle.type = "hexagon" then
      _regular_polygon_vertices G (width / 2) (height / 2) (min width height / 2) 6
    else if obstacle.type = "custom_polygon" ∧ obstacle.points.isSome then
      obstacle.points.getD []
    else
      [(0, 0), (width, 0), (width, height), (0, height)]
  let rotated :=
    if obstacle.rotation ≠ 0 then
      let c := (G.dir (obstacle.rotation / 360)).1
      let s := (G.dir (obstacle.rotation / 360)).2
      local_vertices.map (rotate_about c s (width / 2, height / 2))
    else local_vertices
  rotated.map fun v => (v.1 + obstacle.x, v.2 + obstacle.y)

/-- The arc-sampling loop of `CollisionDetector.get_expanded_vertices` (lines
144-168): for each offset edge, emit its start point followed by the points at
`num_samples - 1 = 4` interpolated angles (`t = j/5`, `j = 1..4`) between the
`atan2` angles of the edge's end and the next edge's start, on the circle of
the given radius around `arc_centers[(i + 1) % len]`. -/
def approximate_generalized (G : Geo) (edges : List (Point × Point))
    (arc_centers : List Point) (radius : ℚ) : List Point :=
  (List.range edges.length).flatMap fun i =>
    let edge := edges.getD i (0, 0)
    let center := arc_centers.getD ((i + 1) % arc_centers.length) 0
    let edge_end := edge.2
    let next_edge_start := (edges.getD ((i + 1) % edges.length) (0, 0)).1
    let angle1 := G.atan2Q (edge_end.2 - center.2) (edge_end.1 - center.1)
    let angle2 := G.atan2Q (next_edge_start.2 - center.2) (next_edge_start.1 - center.1)
    edge.1 :: (List.range' 1 4).map fun j =>
      let t : ℚ := (j : ℚ) / 5
      let angle := angle1 + t * (angle2 - angle1)
      (center.1 + radius * G.cosQ angle, center.2 + radius * G.sinQ angle)

/-- `CollisionDetector.get_expanded_vertices` (lines 113-175): `None` when the
obstacle's expansion distance (default 0) is `≤ 0`; otherwise run
`expand_obstacle` on a fresh expander seeded with that distance and the
obstacle's own method (default `generalized`).  A raised error is caught and
turned into `None` (the `except` clause), as is a falsy result (`None`, or an
empty vertex list).  A `generalized` result is sampled into a polygon through
`approximate_generalized`; for the other methods the returned vertex list is
used directly.  (The two `match` fallbacks below cover result shapes that the
method string makes unreachable.) -/
def get_expanded_vertices (G : Geo) (obstacle : Obstacle) : Option (List Point) :=
  let expansion_dist := obstacle.expansion_distance.getD 0
  if expansion_dist ≤ 0 then none
  else
    let expander : ExpanderState := { d_exp := expansion_dist }
    let method := obstacle.expansion_method.getD METHOD_GENERALIZED
    match (expand_obstacle G expander obstacle (some method) none).1 with
    | .error _ => none
    | .ok none => none
    | .ok (some (.poly [])) => none
    | .ok (some r) =>
      if method = METHOD_GENERALIZED then
        match r with
        | .arcs edges centers radius => some (approximate_generalized G edges centers radius)
        | .poly vs => some vs
      else
        match r with
        | .poly vs => some vs
        | .arcs _ _ _ => none

/-! ### The buffered polygon-overlap test

`_check_polygon_overlap` builds `QPainterPath`s and, when `spacing > 0`,
replaces the first path by the first polygon's bounding rectangle inflated by
`spacing` on all four sides, then asks Qt whether the two filled paths
intersect.  The embedding models `QPainterPath.intersects` as "the two closed
filled regions share a point", computed by the separating-axis test — exact
for convex polygons, which covers every polygon these theorems feed it
(axis-aligned rectangles). -/

/-- `QPolygonF.boundingRect`: the axis-aligned bounding rectangle
`(left, top, right, bottom)` of a vertex list. -/
structure RectQ where
  left : ℚ
  top : ℚ
  right : ℚ
  bottom : ℚ
deriving DecidableEq

/-- Bounding rectangle of a (nonempty) vertex list. -/
def boundingRect (vs : List Point) : RectQ :=
  match vs with
  | [] => ⟨0, 0, 0, 0⟩
  | p :: rest =>
    rest.foldl (fun r q => ⟨min r.left q.1, min r.top q.2, max r.right q.1, max r.bottom q.2⟩)
      ⟨p.1, p.2, p.1, p.2⟩

/-- `QRectF.adjust(-spacing, -spacing, spacing, spacing)`. -/
def RectQ.grow (r : RectQ) (d : ℚ) : RectQ :=
  ⟨r.left - d, r.top - d, r.right + d, r.bottom + d⟩

/-- The four corners of a rectangle, as the polygon `QPainterPath.addRect`
fills. -/
def RectQ.corners (r : RectQ) : List Point :=
  [(r.left, r.top), (r.right, r.top), (r.right, r.bottom), (r.left, r.bottom)]

/-- Outward-ish (unnormalized) perpendiculars of a polygon's edges — the
candidate separating axes contributed by this polygon. -/
def edge_axes (vs : List Point) : List Point :=
  (cyclic_edges vs).map fun e => (e.2.2 - e.1.2, -(e.2.1 - e.1.1))

/-- Minimum of a nonempty list of rationals (0 for the empty list). -/
def listMin (l : List ℚ) : ℚ :=
  match l with
  | [] => 0
  | x :: xs => xs.foldl min x

/-- Maximum of a nonempty list of rationals (0 for the empty list). -/
def listMax (l : List ℚ) : ℚ :=
  match l with
  | [] => 0
  | x :: xs => xs.foldl max x

/-- Whether the axis `a` strictly separates the projections of the two vertex
sets. -/
def axis_separates (a : Point) (p q : List Point) : Bool :=
  decide (listMax (p.map (dot a)) < listMin (q.map (dot a)))
    || decide (listMax (q.map (dot a)) < listMin (p.map (dot a)))

/-- Separating-axis intersection test for two convex polygons as closed filled
regions: they intersect iff no edge axis of either strictly separates them.
This is the model of `QPainterPath.intersects` (see the section comment). -/
def convex_paths_intersect (p q : List Point) : Bool :=
  (edge_axes p ++ edge_axes q).all fun a => ! axis_separates a p q

/-- `CollisionDetector._check_polygon_overlap` (lines 230-262): when
`spacing > 0` the first polygon is replaced by its bounding rectangle inflated
by `spacing`; then the two filled paths are tested for intersection (both ways,
as in the source's final `or`). -/
def _check_polygon_overlap (vertices1 vertices2 : List Point) (spacing : ℚ) : Bool :=
  let path1 :=
    if spacing > 0 then ((boundingRect vertices1).grow spacing).corners
    else vertices1
  convex_paths_intersect path1 vertices2 || convex_paths_intersect vertices2 path1

/-- `CollisionDetector.COLLISION_BOX_MIN_GAP`: the mandatory gap between two
expanded collision boxes. -/
def COLLISION_BOX_MIN_GAP : ℚ := 20

/-- Python truthiness of an optional vertex list: `None` and the empty list
are falsy. -/
def truthy_vertices : Option (List Point) → Bool
  | none => false
  | some [] => false
  | some (_ :: _) => true

/-- `CollisionDetector.check_overlap` (lines 177-228): scan the existing
obstacles (skipping `exclude`; the source compares by object identity, which
coincides with the structural equality used here whenever `exclude` is `none`
or the list has no duplicate records); per pair, first test the two raw shapes
with the `min_spacing` buffer, then — when both sides have positive expansion
distance — the two expanded boxes with the `COLLISION_BOX_MIN_GAP` buffer, and
finally each available expanded box against the other's raw shape with the
`min_spacing` buffer. -/
def check_overlap (G : Geo) (min_spacing : ℚ) (obstacle : Obstacle)
    (obstacles_list : List Obstacle) (exclude : Option Obstacle) : Bool :=
  obstacles_list.any fun existing =>
    if exclude = some existing then false
    else
      let vertices1_original := get_obstacle_vertices G obstacle
      let vertices2_original := get_obstacle_vertices G existing
      if _check_polygon_overlap vertices1_original vertices2_original min_spacing then
        true
      else
        let expansion1 := obstacle.expansion_distance.getD 0
        let expansion2 := existing.expansion_distance.getD 0
        let second_check :=
          if expansion1 > 0 ∧ expansion2 > 0 then
            let vertices1_expanded := get_expanded_vertices G obstacle
            let vertices2_expanded := get_expanded_vertices G existing
            truthy_vertices vertices1_expanded && truthy_vertices vertices2_expanded
              && _check_polygon_overlap (vertices1_expanded.getD [])
                  (vertices2_expanded.getD []) COLLISION_BOX_MIN_GAP
          else false
        let third_check_1 :=
          if expansion1 > 0 then
            let vertices1_expanded := get_expanded_vertices G obstacle
            truthy_vertices vertices1_expanded
              && _check_polygon_overlap (vertices1_expanded.getD [])
                  vertices2_original min_spacing
          else false
        let third_check_2 :=
          if expansion2 > 0 then
            let vertices2_expanded := get_expanded_vertices G existing
            truthy_vertices vertices2_expanded
              && _check_polygon_overlap vertices1_original
                  (vertices2_expanded.getD []) min_spacing
          else false
        second_check || third_check_1 || third_check_2

/-- The `orientation` helper inside `CollisionDetector.segments_intersect`
(lines 280-284): 0 for collinear, 1 for a positive cross value, 2 for a
negative one. -/
def orientation (p q r : Point) : ℕ :=
  let val := (q.2 - p.2) * (r.1 - q.1) - (q.1 - p.1) * (r.2 - q.2)
  if val = 0 then 0 else if val > 0 then 1 else 2

/-- The `on_segment` helper inside `CollisionDetector.segments_intersect`
(lines 286-290): whether `q` lies inside the bounding box of `p` and `r`. -/
def on_segment (p q r : Point) : Bool :=
  decide (q.1 ≤ max p.1 r.1) && decide (q.1 ≥ min p.1 r.1)
    && decide (q.2 ≤ max p.2 r.2) && decide (q.2 ≥ min p.2 r.2)

/-- `CollisionDetector.segments_intersect` (lines 278-309): the classic
orientation test, with the four collinear `on_segment` special cases.  Note
that two segments sharing an endpoint always intersect under this test. -/
def segments_intersect (p1 p2 p3 p4 : Point) : Bool :=
  let o1 := orientation p1 p2 p3
  let o2 := orientation p1 p2 p4
  let o3 := orientation p3 p4 p1
  let o4 := orientation p3 p4 p2
  if o1 ≠ o2 ∧ o3 ≠ o4 then true
  else if o1 = 0 ∧ on_segment p1 p3 p2 then true
  else if o2 = 0 ∧ on_segment p1 p4 p2 then true
  else if o3 = 0 ∧ on_segment p3 p1 p4 then true
  else if o4 = 0 ∧ on_segment p3 p2 p4 then true
  else false

/-- `CollisionDetector.check_new_edge_intersection` (lines 334-358): false
below 2 existing points; otherwise test the candidate edge (last point →
`new_point`) against every placed edge `(points[i], points[i+1])` for
`i = 0 .. n-2` — including the edge that ends at the last point — and the
closing candidate edge (`new_point` → first point) against the placed edges
for `i = 1 .. n-2`. -/
def check_new_edge_intersection (existing_points : List Point) (new_point : Point) :
    Bool :=
  if existing_points.length < 2 then false
  else
    let last_point := existing_points.getD (existing_points.length - 1) 0
    let first_loop := (List.range (existing_points.length - 1)).any fun i =>
      segments_intersect last_point new_point
        (existing_points.getD i 0) (existing_points.getD (i + 1) 0)
    let second_loop := (List.range' 1 (existing_points.length - 2)).any fun i =>
      segments_intersect new_point (existing_points.getD 0 0)
        (existing_points.getD i 0) (existing_points.getD (i + 1) 0)
    first_loop || second_loop

/-! ## Claim C1 -/

/-- A non-expanded, axis-aligned 50×50 square obstacle at `(x, 0)`. -/
def square50 (x : ℚ) : Obstacle :=
  { type := "rectangle", x := x, y := 0, width := 50, height := 50 }

set_option maxHeartbeats 2000000 in
/-- C1: for two axis-aligned, non-expanded 50×50 squares, `check_overlap`
(with the default `min_spacing = 5` baseline buffer) returns true at a 3-unit
gap between the facing edges and false at a 6-unit gap. -/
theorem checkOverlap_squares_gap3_gap6 :
    check_overlap geoRat 5 (square50 0) [square50 53] none = true
    ∧ check_overlap geoRat 5 (square50 0) [square50 56] none = false := by
  have hverts : ∀ x : ℚ, get_obstacle_vertices geoRat (square50 x)
      = [(x, 0), (50 + x, 0), (50 + x, 50), (x, 50)] := by
    intro x
    norm_num [get_obstacle_vertices, square50]
  have hchk3 : _check_polygon_overlap [(0 : Point), (50, 0), (50, 50), (0, 50)]
      [((53:ℚ), (0:ℚ)), (103, 0), (103, 50), (53, 50)] 5 = true := by
    norm_num [_check_polygon_overlap, boundingRect, RectQ.grow, RectQ.corners,
      convex_paths_intersect, edge_axes, cyclic_edges, axis_separates, listMin,
      listMax, dot, min_def, max_def, List.range_succ,
      List.getD_cons_zero, List.getD_cons_succ]
  have hchk6 : _check_polygon_overlap [(0 : Point), (50, 0), (50, 50), (0, 50)]
      [((56:ℚ), (0:ℚ)), (106, 0), (106, 50), (56, 50)] 5 = false := by
    norm_num [_check_polygon_overlap, boundingRect, RectQ.grow, RectQ.corners,
      convex_paths_intersect, edge_axes, cyclic_edges, axis_separates, listMin,
      listMax, dot, min_def, max_def, List.range_succ,
      List.getD_cons_zero, List.getD_cons_succ]
  constructor
  · have h3 := hverts 53
    norm_num at h3
    simp only [check_overlap, List.any_cons, List.any_nil, hverts 0, h3]
    norm_num [square50, hchk3]
    exact fun h => Option.noConfusion h
  · have h6 := hverts 56
    norm_num at h6
    simp only [check_overlap, List.any_cons, List.any_nil, hverts 0, h6]
    norm_num [square50, hchk6]

/-! ## Claim C9 -/

/-- Under `segments_intersect`, a segment ending where the other starts (shared
endpoint `p1 = p4`) is always reported as intersecting: `o2 = orientation p1 p2
p1 = 0` and `p1` trivially lies in the bounding box of `(p1, p2)`. -/
lemma segments_intersect_shared (p1 p2 p3 : Point) :
    segments_intersect p1 p2 p3 p1 = true := by
  have ho2 : orientation p1 p2 p1 = 0 := by
    simp only [orientation]
    have h : (p2.2 - p1.2) * (p1.1 - p2.1) - (p2.1 - p1.1) * (p1.2 - p2.2) = 0 := by ring
    rw [h]
    simp
  have hon : on_segment p1 p1 p2 = true := by
    simp [on_segment, le_max_left, min_le_left]
  simp only [segments_intersect, ho2, hon]
  split
  · rfl
  · split
    · rfl
    · simp

/-- C9 (code bug): `check_new_edge_intersection` returns true on the failing
input `existing_points = [(0,0),(10,0)]`, `new_point = (5,5)` even though the
single placed edge is adjacent to the candidate edge and nothing is crossed —
and in fact it returns true for *every* new point as soon as two points have
been placed, because the first loop includes the placed edge ending at the
last point, which shares that endpoint with the candidate edge and therefore
always passes `segments_intersect`. -/
theorem wouldCreateCrossing_constant_true :
    check_new_edge_intersection [((0:ℚ),(0:ℚ)), (10,0)] (5,5) = true
    ∧ ∀ (pts : List Point) (new_point : Point), 2 ≤ pts.length →
        check_new_edge_intersection pts new_point = true := by
  have main : ∀ (pts : List Point) (new_point : Point), 2 ≤ pts.length →
      check_new_edge_intersection pts new_point = true := by
    intro pts new_point h
    simp only [check_new_edge_intersection]
    rw [if_neg (by omega)]
    simp only [Bool.or_eq_true, List.any_eq_true]
    left
    refine ⟨pts.length - 2, ?_, ?_⟩
    · rw [List.mem_range]
      omega
    · have h2 : pts.length - 2 + 1 = pts.length - 1 := by omega
      rw [h2]
      exact segments_intersect_shared _ _ _
  exact ⟨main _ _ (by simp), main⟩

/-- Witness for the C9 bug theorem at a further concrete input: an L-shaped
partial polygon with three placed points and a fresh candidate point. -/
theorem wouldCreateCrossing_constant_true_witness :
    check_new_edge_intersection [((0:ℚ), (0:ℚ)), (10, 0), (10, 10)] (3, 7) = true :=
  wouldCreateCrossing_constant_true.2 _ _ (by simp)

/-! ## Claims C5 and C6 -/

/-- `ratSqrt 10000 = 100`: the edge-normal length arising for the 100×100
square. -/
lemma ratSqrt_10000 : ratSqrt 10000 = 100 := by
  have h1 : Nat.sqrt 10000 = 100 := by
    have h : (10000 : ℕ) = 100 ^ 2 := by norm_num
    rw [h, Nat.sqrt_eq']
  norm_num [ratSqrt, h1, Nat.sqrt_one]

/-- The 100×100 square with top-left corner `(0,0)` is already
counter-clockwise under the source's convention (signed area 20000 > 0), so
the winding normalizer passes it through. -/
lemma ccw_square100 :
    _ensure_counter_clockwise [(0 : Point), ((100:ℚ), (0:ℚ)), (100, 100), (0, 100)]
      = [(0 : Point), ((100:ℚ), (0:ℚ)), (100, 100), (0, 100)] := by
  norm_num [_ensure_counter_clockwise, _is_counter_clockwise, shoelace,
    Finset.sum_range_succ, cross]

/-- The square obstacle of C5/C6: width = height = 100, top-left `(0,0)`, no
rotation, expansion distance 10, with the given expansion method. -/
def square100 (method : String) : Obstacle :=
  { type := "rectangle", x := 0, y := 0, width := 100, height := 100,
    expansion_distance := some 10, expansion_method := some method }

set_option maxHeartbeats 2000000 in
/-- C5: on the 100×100 square at `(0,0)` with expansion distance 10 and method
arc-generalized, `expand_obstacle` returns exactly the four straight offset
edges (edge `i` is side `i` translated outward by 10 along its normal, so each
is 100 units long — the final conjunct checks the squared lengths), the four
arc centers at the original square corners, and arc radius 10. -/
theorem expand_generalized_square100 :
    (expand_obstacle geoRat {} (square100 METHOD_GENERALIZED)).1
      = .ok (some (.arcs
          [((((0:ℚ), (-10:ℚ))), ((100:ℚ), (-10:ℚ))),
           (((110:ℚ), (0:ℚ)), ((110:ℚ), (100:ℚ))),
           (((100:ℚ), (110:ℚ)), ((0:ℚ), (110:ℚ))),
           ((((-10):ℚ), (100:ℚ)), (((-10):ℚ), (0:ℚ)))]
          [(0 : Point), ((100:ℚ), (0:ℚ)), (100, 100), (0, 100)] 10))
    ∧ ([((((0:ℚ), (-10:ℚ))), ((100:ℚ), (-10:ℚ))),
        (((110:ℚ), (0:ℚ)), ((110:ℚ), (100:ℚ))),
        (((100:ℚ), (110:ℚ)), ((0:ℚ), (110:ℚ))),
        ((((-10):ℚ), (100:ℚ)), (((-10):ℚ), (0:ℚ)))].all fun e =>
          decide ((e.2.1 - e.1.1) ^ 2 + (e.2.2 - e.1.2) ^ 2 = 100 ^ 2)) = true := by
  constructor
  · norm_num [expand_obstacle, expand_obstacle_base, square100,
      METHOD_GENERALIZED, METHOD_PRESERVE_SHAPE, METHOD_CONVEX,
      _obstacle_to_vertices, ccw_square100, expand_polygon_generalized,
      geoRat, ratSqrt_10000, eps, dot, List.range_succ,
      List.getD_cons_zero, List.getD_cons_succ]
    simp
  · norm_num

set_option maxHeartbeats 2000000 in
/-- C6: on the same 100×100 square with method mitered (`preserve_shape`),
`expand_obstacle` returns exactly 4 vertices, the corners of the 120×120
square centered like the input; the output starts the cycle at `(110,-10)`,
i.e. it is the claimed corner list `[(-10,-10),(110,-10),(110,110),(-10,110)]`
rotated by one position (second conjunct). -/
theorem expand_mitered_square100 :
    (expand_obstacle geoRat {} (square100 METHOD_PRESERVE_SHAPE)).1
      = .ok (some (.poly
          [((110:ℚ), (-10:ℚ)), (110, 110), (-10, 110), (-10, -10)]))
    ∧ [((110:ℚ), (-10:ℚ)), (110, 110), (-10, 110), (-10, -10)]
      = ([((-10:ℚ), (-10:ℚ)), (110, -10), (110, 110), (-10, 110)]).rotate 1 := by
  constructor
  · norm_num [expand_obstacle, expand_obstacle_base, square100,
      METHOD_GENERALIZED, METHOD_PRESERVE_SHAPE, METHOD_CONVEX,
      _obstacle_to_vertices, ccw_square100, expand_polygon_preserve_shape,
      _line_intersection, geoRat, ratSqrt_10000, eps, dot, List.range_succ,
      List.getD_cons_zero, List.getD_cons_succ]
  · rfl

/-! ## Claim C10 -/

/-- C10: for every oracle, expander state, obstacle, method argument and
convex-hull argument, the expander's stored state after `expand_obstacle`
equals the state before the call: the directional dispatch never touches it,
the early `None` return leaves it alone, and the temporarily overwritten
`d_exp` is restored by the `finally` block on both the normal path and the
path that raises on an unknown method symbol. -/
theorem expand_obstacle_restores_state (G : Geo) (s : ExpanderState)
    (obstacle : Obstacle) (method : Option String) (force_convex_hull : Option Bool) :
    (expand_obstacle G s obstacle method force_convex_hull).2 = s := by
  obtain ⟨d, f⟩ := s
  simp only [expand_obstacle, expand_obstacle_base]
  repeat' split
  all_goals rfl

/-! ## Claim C3 -/

/-- C3 (amended): for every obstacle whose kind is not one of the five known
kinds, both vertex extractors silently substitute the rectangle default — the
result is identical to that of the same obstacle with kind `rectangle` — and
no error is signalled (both functions are total on such inputs). -/
theorem unknown_kind_defaults_to_rectangle (G : Geo) (obstacle : Obstacle)
    (h1 : obstacle.type ≠ "rectangle") (h2 : obstacle.type ≠ "triangle")
    (h3 : obstacle.type ≠ "pentagon") (h4 : obstacle.type ≠ "hexagon")
    (h5 : obstacle.type ≠ "custom_polygon") :
    get_obstacle_vertices G obstacle
      = get_obstacle_vertices G { obstacle with type := "rectangle" }
    ∧ _obstacle_to_vertices G obstacle
      = _obstacle_to_vertices G { obstacle with type := "rectangle" } := by
  constructor
  · simp [get_obstacle_vertices, h1, h2, h3, h4, h5]
  · simp [_obstacle_to_vertices, h1, h2, h3, h4, h5]

/-- An obstacle of the unknown kind "circle". -/
def circleObstacle : Obstacle := { type := "circle", x := 1, y := 2, width := 3, height := 4 }

/-- C3, counterexample: on the unknown kind "circle" both vertex extractors
return the rectangle corners of the placement box — no `InvalidArgument` is
signalled, the default shape is silently substituted. -/
theorem unknown_kind_silently_defaults :
    get_obstacle_vertices geoRat circleObstacle = [((1:ℚ), (2:ℚ)), (4, 2), (4, 6), (1, 6)]
    ∧ _obstacle_to_vertices geoRat circleObstacle = [((1:ℚ), (2:ℚ)), (4, 2), (4, 6), (1, 6)] := by
  constructor <;>
  · simp [get_obstacle_vertices, _obstacle_to_vertices, circleObstacle]
    norm_num

/-- Witness for the amended C3 theorem at the concrete unknown kind
"circle". -/
theorem unknown_kind_defaults_to_rectangle_witness :
    get_obstacle_vertices geoRat circleObstacle
      = get_obstacle_vertices geoRat { circleObstacle with type := "rectangle" }
    ∧ _obstacle_to_vertices geoRat circleObstacle
      = _obstacle_to_vertices geoRat { circleObstacle with type := "rectangle" } :=
  unknown_kind_defaults_to_rectangle geoRat circleObstacle
    (by simp [circleObstacle]) (by simp [circleObstacle]) (by simp [circleObstacle])
    (by simp [circleObstacle]) (by simp [circleObstacle])

/-! ## Claim C4 -/

/-- C4 (amended): a custom-polygon obstacle never reaches either directional
routine: `expand_obstacle` on it behaves exactly as if `use_directional_expansion`
were cleared, silently substituting the ordinary (non-directional) expansion;
the directional-on-custom-polygon `InvalidArgument` lives only in
`expand_polygon_directional` itself, which `expand_obstacle` never calls for
this kind (second conjunct). -/
theorem custom_polygon_directional_ignored (G : Geo) (s : ExpanderState)
    (obstacle : Obstacle) (method : Option String) (fch : Option Bool)
    (h : obstacle.type = "custom_polygon") :
    expand_obstacle G s obstacle method fch
      = expand_obstacle G s { obstacle with use_directional_expansion := false } method fch
    ∧ expand_polygon_directional G obstacle
      = .error ("Quadrant-based directional expansion not supported for " ++ obstacle.type) := by
  have hbase : expand_obstacle_base G s obstacle method fch
      = expand_obstacle_base G s { obstacle with use_directional_expansion := false }
          method fch := by
    simp only [expand_obstacle_base, _obstacle_to_vertices]
  constructor
  · simp only [expand_obstacle]
    by_cases hd : obstacle.use_directional_expansion = true
        ∧ (obstacle.directional_expansion.north > 0 ∨ obstacle.directional_expansion.south > 0
          ∨ obstacle.directional_expansion.east > 0 ∨ obstacle.directional_expansion.west > 0)
    · rw [if_pos hd, if_neg (by simp [h]), if_neg (by simp [h]), if_neg (by simp)]
      exact hbase
    · rw [if_neg hd, if_neg (by simp)]
      exact hbase
  · simp [expand_polygon_directional, h]

/-- `ratSqrt 100 = 10`: the edge-normal length arising for the 10×10 custom
square. -/
lemma ratSqrt_100 : ratSqrt 100 = 10 := by
  have h1 : Nat.sqrt 100 = 10 := by
    have h : (100 : ℕ) = 10 ^ 2 := by norm_num
    rw [h, Nat.sqrt_eq']
  norm_num [ratSqrt, h1, Nat.sqrt_one]

/-- The 10×10 square is counter-clockwise under the source's convention. -/
lemma ccw_square10 :
    _ensure_counter_clockwise [(0 : Point), ((10:ℚ), (0:ℚ)), (10, 10), (0, 10)]
      = [(0 : Point), ((10:ℚ), (0:ℚ)), (10, 10), (0, 10)] := by
  norm_num [_ensure_counter_clockwise, _is_counter_clockwise, shoelace,
    Finset.sum_range_succ, cross]

/-- A custom-polygon obstacle (10×10 square) that *requests* directional
expansion (north = 5) while also carrying an ordinary expansion distance. -/
def customDirSquare : Obstacle :=
  { type := "custom_polygon", x := 0, y := 0, width := 10, height := 10,
    points := some [(0, 0), (10, 0), (10, 10), (0, 10)],
    expansion_distance := some 10, expansion_method := some METHOD_PRESERVE_SHAPE,
    use_directional_expansion := true,
    directional_expansion := { north := 5 }, can_rotate := false }

set_option maxHeartbeats 2000000 in
/-- C4, counterexample: on a custom-polygon obstacle with directional
offsetting requested (`use_directional_expansion` set, north = 5 > 0),
`expand_obstacle` raises nothing and silently returns the ordinary
`preserve_shape` expansion of the polygon by its base distance 10. -/
theorem custom_directional_silently_expanded :
    (expand_obstacle geoRat {} customDirSquare).1
      = .ok (some (.poly [((20:ℚ), (-10:ℚ)), (20, 20), (-10, 20), (-10, -10)])) := by
  have h1 : expand_obstacle geoRat {} customDirSquare
      = expand_obstacle_base geoRat {} customDirSquare none none := by
    simp [expand_obstacle, customDirSquare]
  have h2 : _obstacle_to_vertices geoRat customDirSquare
      = [(0 : Point), ((10:ℚ), (0:ℚ)), (10, 10), (0, 10)] := by
    simp [_obstacle_to_vertices, customDirSquare]
  have h3 : expand_polygon_preserve_shape geoRat 10
      [(0 : Point), ((10:ℚ), (0:ℚ)), (10, 10), (0, 10)]
      = [((20:ℚ), (-10:ℚ)), (20, 20), (-10, 20), (-10, -10)] := by
    norm_num [expand_polygon_preserve_shape, ccw_square10, _line_intersection,
      geoRat, ratSqrt_100, eps, dot, List.range_succ,
      List.getD_cons_zero, List.getD_cons_succ]
  have h4 : customDirSquare.expansion_distance = some 10 := rfl
  have h5 : customDirSquare.expansion_method = some METHOD_PRESERVE_SHAPE := rfl
  have h6 : customDirSquare.force_convex_hull = none := rfl
  rw [h1]
  simp only [expand_obstacle_base, h4, h5, h6, Option.getD_some, Option.getD_none]
  rw [if_neg (by norm_num)]
  simp [h2, h3, METHOD_PRESERVE_SHAPE]

/-- Witness for the amended C4 theorem at the concrete custom-polygon
obstacle. -/
theorem custom_polygon_directional_ignored_witness :
    expand_obstacle geoRat {} customDirSquare none none
      = expand_obstacle geoRat {}
          { customDirSquare with use_directional_expansion := false } none none
    ∧ expand_polygon_directional geoRat customDirSquare
      = .error ("Quadrant-based directional expansion not supported for "
          ++ customDirSquare.type) :=
  custom_polygon_directional_ignored geoRat {} customDirSquare none none rfl

/-! ## Claim C2 -/

/-- The non-directional path returns the explicit no-boundary result exactly
when the resolved expansion distance is `≤ 0`; with a positive distance it
either yields a boundary or raises on an unknown method, never `None`. -/
lemma expand_obstacle_base_ok_none_iff (G : Geo) (s : ExpanderState)
    (obstacle : Obstacle) (method : Option String) (fch : Option Bool) :
    (expand_obstacle_base G s obstacle method fch).1 = .ok none
      ↔ obstacle.expansion_distance.getD s.d_exp ≤ 0 := by
  simp only [expand_obstacle_base]
  split
  next hle => simp [hle]
  next hgt =>
    refine iff_of_false ?_ hgt
    repeat' split
    all_goals simp

/-- From the directional dispatch, the rectangle routine never returns the
no-boundary result: some directional distance is strictly positive, so the
all-zero early return cannot fire, and every method branch produces a
boundary. -/
lemma rect_directional_ne_ok_none (G : Geo) (obstacle : Obstacle)
    (htype : obstacle.type = "rectangle")
    (hpos : obstacle.directional_expansion.north > 0
      ∨ obstacle.directional_expansion.south > 0
      ∨ obstacle.directional_expansion.east > 0
      ∨ obstacle.directional_expansion.west > 0) :
    expand_rectangle_directional G obstacle ≠ .ok none := by
  simp only [expand_rectangle_directional]
  rw [if_neg (by simp [htype])]
  rw [if_neg (by
    rintro ⟨r1, r2, r3, r4⟩
    rcases hpos with hp | hp | hp | hp
    · exact hp.ne' r1
    · exact hp.ne' r2
    · exact hp.ne' r3
    · exact hp.ne' r4)]
  repeat' split
  all_goals simp

/-- Same for the triangle/pentagon/hexagon directional routine. -/
lemma poly_directional_ne_ok_none (G : Geo) (obstacle : Obstacle)
    (htype : obstacle.type = "triangle" ∨ obstacle.type = "pentagon"
      ∨ obstacle.type = "hexagon")
    (hpos : obstacle.directional_expansion.north > 0
      ∨ obstacle.directional_expansion.south > 0
      ∨ obstacle.directional_expansion.east > 0
      ∨ obstacle.directional_expansion.west > 0) :
    expand_polygon_directional G obstacle ≠ .ok none := by
  simp only [expand_polygon_directional]
  rw [if_neg (not_not_intro htype)]
  rw [if_neg (by
    rintro ⟨r1, r2, r3, r4⟩
    rcases hpos with hp | hp | hp | hp
    · exact hp.ne' r1
    · exact hp.ne' r2
    · exact hp.ne' r3
    · exact hp.ne' r4)]
  rcases htype with h | h | h <;>
  · simp only [_get_local_vertices_for_type, h]
    simp only [reduceIte]
    repeat' split
    all_goals simp

/-- C2 (amended): `expand_obstacle` returns the explicit no-boundary result
(`None`) exactly when the directional dispatch does **not** apply — i.e. it is
not the case that `use_directional_expansion` is set, some directional
distance is strictly positive, and the kind is
rectangle/triangle/pentagon/hexagon — and the resolved base expansion distance
is `≤ 0`.  In particular, an obstacle with directional mode enabled and all
four directional distances zero falls through to the base logic and still gets
a boundary whenever its base distance is positive (see the counterexample),
and an applicable directional dispatch never returns `None` even when the base
distance is `≤ 0`. -/
theorem expand_ok_none_iff (G : Geo) (s : ExpanderState) (obstacle : Obstacle)
    (method : Option String) (fch : Option Bool) :
    (expand_obstacle G s obstacle method fch).1 = Except.ok none
      ↔ (¬ (obstacle.use_directional_expansion = true
            ∧ (obstacle.directional_expansion.north > 0
              ∨ obstacle.directional_expansion.south > 0
              ∨ obstacle.directional_expansion.east > 0
              ∨ obstacle.directional_expansion.west > 0)
            ∧ (obstacle.type = "rectangle" ∨ obstacle.type = "triangle"
              ∨ obstacle.type = "pentagon" ∨ obstacle.type = "hexagon")))
        ∧ obstacle.expansion_distance.getD s.d_exp ≤ 0 := by
  simp only [expand_obstacle]
  split
  next hdisp =>
    obtain ⟨huse, hpos⟩ := hdisp
    split
    next hrect =>
      refine iff_of_false (rect_directional_ne_ok_none G obstacle hrect hpos) ?_
      rintro ⟨hnot, -⟩
      exact hnot ⟨huse, hpos, Or.inl hrect⟩
    next hnrect =>
      split
      next htph =>
        refine iff_of_false (poly_directional_ne_ok_none G obstacle htph hpos) ?_
        rintro ⟨hnot, -⟩
        refine hnot ⟨huse, hpos, ?_⟩
        rcases htph with h | h | h
        · exact Or.inr (Or.inl h)
        · exact Or.inr (Or.inr (Or.inl h))
        · exact Or.inr (Or.inr (Or.inr h))
      next hnot3 =>
        rw [expand_obstacle_base_ok_none_iff]
        constructor
        · intro hle
          refine ⟨?_, hle⟩
          rintro ⟨-, -, hC⟩
          rcases hC with h | h | h | h
          · exact hnrect h
          · exact hnot3 (Or.inl h)
          · exact hnot3 (Or.inr (Or.inl h))
          · exact hnot3 (Or.inr (Or.inr h))
        · rintro ⟨-, hle⟩
          exact hle
  next hndisp =>
    rw [expand_obstacle_base_ok_none_iff]
    constructor
    · intro hle
      exact ⟨fun hA => hndisp ⟨hA.1, hA.2.1⟩, hle⟩
    · rintro ⟨-, hle⟩
      exact hle

/-- The C2 counterexample obstacle: a rectangle with directional mode enabled,
all four directional distances zero, and base expansion distance 10. -/
def dirAllZeroSquare : Obstacle :=
  { type := "rectangle", x := 0, y := 0, width := 100, height := 100,
    expansion_distance := some 10, expansion_method := some METHOD_GENERALIZED,
    use_directional_expansion := true }

set_option maxHeartbeats 2000000 in
/-- C2, counterexample: with directional mode enabled and all four directional
distances zero, the dispatch condition (`any distance > 0`) fails, the call
falls through to the base logic, and — the base distance being 10 > 0 — a full
arc-generalized boundary is produced instead of the `None` the claim
demands. -/
theorem directional_all_zero_still_expands :
    (expand_obstacle geoRat {} dirAllZeroSquare).1 ≠ Except.ok none
    ∧ (expand_obstacle geoRat {} dirAllZeroSquare).1
      = .ok (some (.arcs
          [((((0:ℚ), (-10:ℚ))), ((100:ℚ), (-10:ℚ))),
           (((110:ℚ), (0:ℚ)), ((110:ℚ), (100:ℚ))),
           (((100:ℚ), (110:ℚ)), ((0:ℚ), (110:ℚ))),
           ((((-10):ℚ), (100:ℚ)), (((-10):ℚ), (0:ℚ)))]
          [(0 : Point), ((100:ℚ), (0:ℚ)), (100, 100), (0, 100)] 10)) := by
  have heq : (expand_obstacle geoRat {} dirAllZeroSquare).1
      = .ok (some (.arcs
          [((((0:ℚ), (-10:ℚ))), ((100:ℚ), (-10:ℚ))),
           (((110:ℚ), (0:ℚ)), ((110:ℚ), (100:ℚ))),
           (((100:ℚ), (110:ℚ)), ((0:ℚ), (110:ℚ))),
           ((((-10):ℚ), (100:ℚ)), (((-10):ℚ), (0:ℚ)))]
          [(0 : Point), ((100:ℚ), (0:ℚ)), (100, 100), (0, 100)] 10)) := by
    norm_num [expand_obstacle, expand_obstacle_base, dirAllZeroSquare,
      METHOD_GENERALIZED, METHOD_PRESERVE_SHAPE, METHOD_CONVEX,
      _obstacle_to_vertices, ccw_square100, expand_polygon_generalized,
      geoRat, ratSqrt_10000, eps, dot, List.range_succ,
      List.getD_cons_zero, List.getD_cons_succ]
    simp
  exact ⟨by rw [heq]; simp, heq⟩

/-! ## Claim C7 -/

/-- Length of a `flatMap` as the sum of the pieces' lengths. -/
lemma length_flatMap_eq_sum {α β : Type} (l : List α) (f : α → List β) :
    (l.flatMap f).length = (l.map fun a => (f a).length).sum := by
  induction l with
  | nil => rfl
  | cons a t ih => simp [List.flatMap_cons, ih]

/-- Summing a constant over `List.range`. -/
lemma sum_map_const_range (n x : ℕ) : ((List.range n).map fun _ => x).sum = n * x := by
  induction n with
  | zero => simp
  | succ m ih => simp [List.range_succ, ih, Nat.succ_mul]

/-- Each arc span of the detector's sampling loop contributes the edge start
point plus exactly 4 interpolated arc points, so the approximating polygon has
`5 * n` vertices for `n` offset edges — for every valuation of the
trigonometric oracle. -/
lemma approximate_generalized_length (G : Geo) (edges : List (Point × Point))
    (arc_centers : List Point) (radius : ℚ) :
    (approximate_generalized G edges arc_centers radius).length = 5 * edges.length := by
  simp only [approximate_generalized]
  rw [length_flatMap_eq_sum]
  have key : ∀ F : ℕ → List Point, (∀ a, (F a).length = 5) →
      ((List.range edges.length).map fun a => (F a).length).sum = 5 * edges.length := by
    intro F hF
    have hmap : ((List.range edges.length).map fun a => (F a).length)
        = (List.range edges.length).map fun _ => 5 :=
      List.map_congr_left fun a _ => hF a
    rw [hmap, sum_map_const_range]
    ring
  exact key _ fun a => rfl

/-- C7 (amended): in the expanded-box tier, an arc-generalized boundary is
approximated by inserting **4** interpolated points per arc span (the sampling
loop runs `j = 1 .. 4` of `num_samples = 5`), giving `5n` polygon vertices for
`n` edges — not 5 interpolated points per span; and a boundary produced with a
non-`generalized` method is passed through and used directly as the
polygon. -/
theorem arc_sampling_four_points_and_passthrough :
    (∀ (G : Geo) (edges : List (Point × Point)) (arc_centers : List Point) (radius : ℚ),
        (approximate_generalized G edges arc_centers radius).length = 5 * edges.length)
    ∧ (∀ (G : Geo) (obstacle : Obstacle) (v : Point) (vs : List Point),
        obstacle.expansion_method.getD METHOD_GENERALIZED ≠ METHOD_GENERALIZED →
        0 < obstacle.expansion_distance.getD 0 →
        (expand_obstacle G { d_exp := obstacle.expansion_distance.getD 0 } obstacle
            (some (obstacle.expansion_method.getD METHOD_GENERALIZED)) none).1
          = .ok (some (.poly (v :: vs))) →
        get_expanded_vertices G obstacle = some (v :: vs)) := by
  constructor
  · exact approximate_generalized_length
  · intro G obstacle v vs hmeth hdist hexp
    simp only [get_expanded_vertices]
    rw [if_neg (not_le.mpr hdist), hexp]
    simp [hmeth]

set_option maxHeartbeats 2000000 in
/-- C7, counterexample: on the arc-generalized 100×100 square (4 offset
edges), the detector's approximating polygon has `4 * (1 + 4) = 20` vertices;
with 5 interpolated points per arc span as claimed it would have
`4 * (1 + 5) = 24`. -/
theorem arc_sampling_not_five_points :
    (get_expanded_vertices geoRat (square100 METHOD_GENERALIZED)).map List.length
      = some 20
    ∧ (20 : ℕ) ≠ 4 * (1 + 5) := by
  have harcs : (expand_obstacle geoRat { d_exp := 10 } (square100 METHOD_GENERALIZED)
        (some METHOD_GENERALIZED) none).1
      = .ok (some (.arcs
          [((((0:ℚ), (-10:ℚ))), ((100:ℚ), (-10:ℚ))),
           (((110:ℚ), (0:ℚ)), ((110:ℚ), (100:ℚ))),
           (((100:ℚ), (110:ℚ)), ((0:ℚ), (110:ℚ))),
           ((((-10):ℚ), (100:ℚ)), (((-10):ℚ), (0:ℚ)))]
          [(0 : Point), ((100:ℚ), (0:ℚ)), (100, 100), (0, 100)] 10)) := by
    norm_num [expand_obstacle, expand_obstacle_base, square100,
      METHOD_GENERALIZED, METHOD_PRESERVE_SHAPE, METHOD_CONVEX,
      _obstacle_to_vertices, ccw_square100, expand_polygon_generalized,
      geoRat, ratSqrt_10000, eps, dot, List.range_succ,
      List.getD_cons_zero, List.getD_cons_succ]
    simp
  have hd : (square100 METHOD_GENERALIZED).expansion_distance = some 10 := rfl
  have hm : (square100 METHOD_GENERALIZED).expansion_method
      = some METHOD_GENERALIZED := rfl
  constructor
  · simp only [get_expanded_vertices, hd, hm, Option.getD_some]
    rw [if_neg (by norm_num), harcs]
    simp [approximate_generalized_length]
  · norm_num

set_option maxHeartbeats 2000000 in
/-- Witness for the amended C7 theorem: the pass-through clause discharged on
the concrete mitered square (its `preserve_shape` boundary is returned
unchanged by `get_expanded_vertices`). -/
theorem arc_sampling_passthrough_witness :
    get_expanded_vertices geoRat (square100 METHOD_PRESERVE_SHAPE)
      = some [((110:ℚ), (-10:ℚ)), (110, 110), (-10, 110), (-10, -10)] := by
  refine arc_sampling_four_points_and_passthrough.2 geoRat
    (square100 METHOD_PRESERVE_SHAPE) ((110:ℚ), (-10:ℚ))
    [(110, 110), (-10, 110), (-10, -10)] ?_ ?_ ?_
  · simp [square100, METHOD_PRESERVE_SHAPE, METHOD_GENERALIZED]
  · norm_num [square100]
  · norm_num [expand_obstacle, expand_obstacle_base, square100,
      METHOD_GENERALIZED, METHOD_PRESERVE_SHAPE, METHOD_CONVEX,
      _obstacle_to_vertices, ccw_square100, expand_polygon_preserve_shape,
      _line_intersection, geoRat, ratSqrt_10000, eps, dot, List.range_succ,
      List.getD_cons_zero, List.getD_cons_succ]

end CollisionViewer
